import Mathlib

/-!
# Verification of the tweet-server ingest pipeline

Shallow embedding of `src/index.js` (two near-duplicate service variants in
one file; definitions suffixed `V2` embed the second variant, lines 542-995).
External effects (the Twitter fetch API, the Gemini generative-text service,
JSON parsing of untyped responses, the MongoDB store, the system clock) are
modelled as explicit environment parameters; everything the JS code itself
computes is embedded as executable Lean functions.

Modelling conventions:
* JS strings are Lean `String`; `text.slice(0, n)` is `jsSlice` on the
  character list (JS indexes UTF-16 units, Lean code points; the difference
  does not affect any property proved here).
* JS truthiness on possibly-absent values: an absent field is `none`; a
  present string is falsy exactly when empty; a present array is always
  truthy (`jsTruthyStr`, `jsTruthyArr`); a present number is falsy exactly
  when zero (used for cache timestamps).
* `Date.now()` is an `Int` parameter `now` (milliseconds).
* A rejected promise / thrown exception from an external call is a
  constructor carrying the JS error message.
-/

namespace TweetServer

/-- JS `s.slice(0, n)`: the first `n` characters of `s`. -/
def jsSlice (s : String) (n : Nat) : String := ⟨s.data.take n⟩

/-- JS truthiness of a possibly-absent string field: truthy iff present and non-empty. -/
def jsTruthyStr : Option String → Bool
  | some s => !(decide (s = ""))
  | none => false

/-- JS truthiness of a possibly-absent array field: truthy iff present (even if empty). -/
def jsTruthyArr : Option (List String) → Bool
  | some _ => true
  | none => false

/-- Template-literal interpolation of a possibly-absent value: `undefined` prints as "undefined". -/
def jsInterp : Option String → String
  | some s => s
  | none => "undefined"

/-- Outcome of one `genAI.models.generateContent` call: the promise rejects with a
message, or resolves to a result whose `.text` may be absent. -/
inductive GeminiCall where
  | fault (msg : String)
  | ok (text : Option String)

/-- The generative-text service as seen by the program: a response per prompt. -/
def GeminiService : Type := String → GeminiCall

/-- The six-key record `JSON.parse` may produce for the tweet formatter; every
field is optional because the parsed JSON is untyped. -/
structure GeminiTweetData where
  title : Option String
  summary : Option String
  slug : Option String
  tags : Option (List String)
  slug_te : Option String
  tags_te : Option (List String)
deriving Repr, DecidableEq

/-- The two-key record `JSON.parse` may produce for the free-text formatter. -/
structure GeminiTextData where
  title : Option String
  summary : Option String
deriving Repr, DecidableEq

/-- `result.text.trim().replace(/```json/g, "").replace(/```/g, "").trim()` (variant 1). -/
def cleanGeminiResponse (raw : String) : String :=
  (((raw.trim).replace "```json" "").replace "```" "").trim

/-- `result.text.replace(/```json|```/g, "").trim()` (variant 2). -/
def cleanGeminiResponseV2 (raw : String) : String :=
  ((raw.replace "```json" "").replace "```" "").trim

/-- Variant 1 prompt template of `formatTweetWithGemini` (src/index.js lines 87-101). -/
def tweetPrompt (text : String) : String :=
  "You are a professional news editor.\n" ++
  "Take the following English text and generate all the required fields.\n" ++
  "1. **title:** A short, catchy headline translated into **Telugu**.\n" ++
  "2. **summary:** A concise summary translated into **Telugu**, approximately 50 words like telugu professional news editor.\n" ++
  "3. **slug:** A URL-friendly slug based on the *original English text* (e.g., \"new-system-implemented\").\n" ++
  "4. **tags:** An array of 3-5 relevant tags in **English** (e.g., [\"viral\", \"news\"]).\n" ++
  "5. **slug_te:** A URL-friendly slug based on the *Telugu title* (e.g., \"kotha-pranali-amalu\").\n" ++
  "6. **tags_te:** An array of 3-5 relevant tags in **Telugu** (e.g., [\"వైరల్\", \"వార్తలు\"]).\n" ++
  "Return ONLY a valid JSON object with six keys: \"title\", \"summary\", \"slug\", \"tags\", \"slug_te\", and \"tags_te\".\n" ++
  "Do not add any other text, markdown, or backticks.\n" ++
  "Input Text:\n" ++ text

/-- Variant 2 prompt template of `formatTweetWithGemini` (src/index.js lines 649-654). -/
def tweetPromptV2 (text : String) : String :=
  "You are a professional Telugu news editor.\n" ++
  "Generate JSON only:\n" ++
  "\x7b \"title\", \"summary\", \"slug\", \"tags\", \"slug_te\", \"tags_te\" \x7d\n" ++
  "Text: " ++ text

/-- Variant 1 prompt template of `formatTextWithGemini` (src/index.js lines 139-159). -/
def freeTextPrompt (text instruction : String) : String :=
  "You are a professional Telugu news editor.\n" ++
  "You will be given a user's instruction and a piece of text.\n" ++
  "Your task is to follow the instruction on the text and generate two items:\n" ++
  "1. **title:** A short, catchy headline in Telugu based on the result.\n" ++
  "2. **summary:** The resulting text, formatted as a concise summary in Telugu.\n" ++
  "Follow the user's instruction precisely.\n" ++
  "- If the instruction is \"translate english to telugu\", you will translate the text and provide a title and summary of that translation.\n" ++
  "- If the instruction is \"summarize this telugu text\", you will summarize it and provide a title for that summary.\n" ++
  "- If the instruction is \"translate hindi to telugu\", you will do that and provide a title and summary.\n" ++
  "Return ONLY a valid JSON object with two keys: \"title\" and \"summary\".\n" ++
  "Do not add any other text, markdown, or backticks.\n" ++
  "---\nUser Instruction:\n" ++ instruction ++
  "\n---\nInput Text:\n" ++ text

/-- Variant 2 prompt template of `formatTextWithGemini` (src/index.js lines 677-681). -/
def freeTextPromptV2 (text instruction : String) : String :=
  "Process the text following instruction: " ++ instruction ++ "\n" ++
  "Return JSON: \x7b \"title\", \"summary\" \x7d\n" ++
  "Text: " ++ text

/-- The deterministic fallback of variant 1 `formatTweetWithGemini`
(src/index.js lines 126-133), built purely from the input text and `Date.now()`. -/
def tweetFallback (text : String) (now : Int) : GeminiTweetData :=
  { title := some (jsSlice text 50)
    summary := some text
    slug := some ("fallback-" ++ toString now)
    tags := some ["news"]
    slug_te := some ("fallback-te-" ++ toString now)
    tags_te := some ["వార్తలు"] }

/-- The deterministic fallback of variant 2 `formatTweetWithGemini`
(src/index.js lines 665-672). -/
def tweetFallbackV2 (text : String) (now : Int) : GeminiTweetData :=
  { title := some (jsSlice text 60)
    summary := some text
    slug := some (jsSlice text 60 ++ toString now)
    tags := some ["news"]
    slug_te := some ("fallback-te-" ++ toString now)
    tags_te := some ["వార్తలు"] }

/-- Variant 1 field validation (src/index.js line 117):
`!p.title || !p.summary || !p.slug || !p.tags || !p.slug_te || !p.tags_te` throws.
JS truthiness: string fields must be present and non-empty, array fields merely present. -/
def validTweetData (p : GeminiTweetData) : Bool :=
  jsTruthyStr p.title && jsTruthyStr p.summary && jsTruthyStr p.slug &&
  jsTruthyArr p.tags && jsTruthyStr p.slug_te && jsTruthyArr p.tags_te

/-- Variant 1 `formatTweetWithGemini` (src/index.js lines 86-135).  `parse` is the
untyped `JSON.parse`, returning either the parsed record or the thrown message. -/
def formatTweetWithGemini (text : String) (svc : GeminiService)
    (parse : String → Except String GeminiTweetData) (now : Int) : GeminiTweetData :=
  match svc (tweetPrompt text) with
  | .fault _ => tweetFallback text now
  | .ok none => tweetFallback text now
  | .ok (some raw) =>
    if raw = "" then tweetFallback text now
    else
      match parse (cleanGeminiResponse raw) with
      | .error _ => tweetFallback text now
      | .ok p => if validTweetData p then p else tweetFallback text now

/-- Variant 2 `formatTweetWithGemini` (src/index.js lines 648-674): no `result.text`
check and no field validation; a missing `result.text` throws a TypeError inside
the try block, landing in the same fallback. -/
def formatTweetWithGeminiV2 (text : String) (svc : GeminiService)
    (parse : String → Except String GeminiTweetData) (now : Int) : GeminiTweetData :=
  match svc (tweetPromptV2 text) with
  | .fault _ => tweetFallbackV2 text now
  | .ok none => tweetFallbackV2 text now
  | .ok (some raw) =>
    match parse (cleanGeminiResponseV2 raw) with
    | .error _ => tweetFallbackV2 text now
    | .ok p => p

/-- Variant 1 `formatTextWithGemini` (src/index.js lines 138-188). -/
def formatTextWithGemini (text instruction : String) (svc : GeminiService)
    (parse : String → Except String GeminiTextData) : GeminiTextData :=
  match svc (freeTextPrompt text instruction) with
  | .fault m => { title := some "Error in Processing", summary := some m }
  | .ok none =>
    { title := some "Error in Processing", summary := some "Gemini returned no text." }
  | .ok (some raw) =>
    if raw = "" then
      { title := some "Error in Processing", summary := some "Gemini returned no text." }
    else
      match parse (cleanGeminiResponse raw) with
      | .error e => { title := some "Error in Processing", summary := some e }
      | .ok p =>
        if jsTruthyStr p.title && jsTruthyStr p.summary then p
        else { title := some "Error in Processing",
               summary := some "Gemini returned incomplete JSON data (missing title or summary)." }

/-- Variant 2 `formatTextWithGemini` (src/index.js lines 676-694): no validation;
`tyErrMsg` is the runtime TypeError message raised by `.replace` on a missing
`result.text`. -/
def formatTextWithGeminiV2 (text instruction : String) (svc : GeminiService)
    (parse : String → Except String GeminiTextData) (tyErrMsg : String) : GeminiTextData :=
  match svc (freeTextPromptV2 text instruction) with
  | .fault m => { title := some "Error", summary := some m }
  | .ok none => { title := some "Error", summary := some tyErrMsg }
  | .ok (some raw) =>
    match parse (cleanGeminiResponseV2 raw) with
    | .error e => { title := some "Error", summary := some e }
    | .ok p => p

/-- One raw tweet as delivered by the upstream fetch API (the fields the
program reads: `id`, `text`, `author.name`, `author.userName`, `url`,
`createdAt`, `lang`, `extendedEntities.media[0].media_url_https`). -/
structure Tweet where
  id : String
  text : String
  authorName : String
  authorUserName : String
  url : String
  createdAt : String
  lang : Option String
  mediaUrl : Option String
deriving Repr, DecidableEq

/-- The persisted article record, with the fields the `new Article({...})`
constructors set.  `publishedDate` is the `new Date()` value in ms; `typeTag`
embeds the variant-2 `type` field (absent in variant 1). -/
structure Article where
  title : String
  slug : String
  summary : String
  content : String
  liveContent : String
  isFullArticle : Bool
  author : String
  category : String
  featuredImage : Option String
  featuredVideo : String
  tags : List String
  publishedDate : Int
  status : String
  tweetId : String
  tweetUrl : String
  twitterEmbed : String
  slug_te : String
  tags_te : List String
  typeTag : Option String
deriving Repr, DecidableEq

/-- Body of a successful tweets-API response: `data.status` and `data.tweets`
as the untyped JSON delivers them. -/
structure TweetsBody where
  status : Option String
  tweets : Option (List Tweet)
deriving Repr, DecidableEq

/-- Outcome of one `fetch` of the tweets API as the program observes it:
the promise rejects, or the response is non-ok, or `.json()` throws, or a
parsed body arrives. -/
inductive FetchOutcome where
  | transportError (msg : String)
  | httpError (statusCode : Nat)
  | jsonError (msg : String)
  | success (body : TweetsBody)

/-- Outcome of `newArticle.save()`: resolves, or rejects with an error carrying
an optional `code` (11000 = Mongo duplicate key) and a message. -/
inductive SaveOutcome where
  | saved
  | dbError (code : Option Nat) (msg : String)

/-- Environment of one `processTweetId` call: the external world it touches. -/
structure ProcEnv where
  fetch : FetchOutcome
  svc : GeminiService
  parse : String → Except String GeminiTweetData
  now : Int
  formatDate : String → String
  save : SaveOutcome

/-- Result shape of `processTweetId`: `{success: true, data}` or
`{success: false, id, reason}`. -/
inductive ProcResult where
  | success (data : Article)
  | failure (id : String) (reason : String)
deriving Repr, DecidableEq

/-- The variant 1 blockquote embed markup (src/index.js lines 226-233),
whitespace normalized; `tweet.lang || 'en'` is the JS truthiness default. -/
def mkTwitterEmbed (tweet : Tweet) (formattedDate : String) : String :=
  "<blockquote class=\"twitter-tweet\" data-media-max-width=\"560\"><p lang=\"" ++
  (match tweet.lang with | some l => if l = "" then "en" else l | none => "en") ++
  "\" dir=\"ltr\">" ++ tweet.text ++ "</p>&mdash; " ++ tweet.authorName ++
  " (@" ++ tweet.authorUserName ++ ") <a href=\"" ++ tweet.url ++ "\">" ++
  formattedDate ++ "</a></blockquote><script async src=\"https://platform.twitter.com/widgets.js\" charset=\"utf-8\"></script>"

/-- The variant 2 blockquote embed markup (src/index.js lines 715-722). -/
def mkTwitterEmbedV2 (tweet : Tweet) : String :=
  "<blockquote class=\"twitter-tweet\"><p>" ++ tweet.text ++ "</p>— " ++
  tweet.authorName ++ " (@" ++ tweet.authorUserName ++ ") <a href=\"" ++
  tweet.url ++ "\">" ++ tweet.createdAt ++ "</a></blockquote><script async src=\"https://platform.twitter.com/widgets.js\"></script>"

/-- The article variant 1 `processTweetId` constructs (src/index.js lines 238-259). -/
def mkArticleV1 (tweet : Tweet) (g : GeminiTweetData) (embed : String) (now : Int) : Article :=
  { title := g.title.getD ""
    slug := g.slug.getD ""
    summary := g.summary.getD ""
    content := match g.summary with
      | some s => if s = "" then "<p>" ++ tweet.text ++ "</p>" else s
      | none => "<p>" ++ tweet.text ++ "</p>"
    liveContent := jsInterp g.summary
    isFullArticle := false
    author := "Vijay"
    category := "news"
    featuredImage := tweet.mediaUrl
    featuredVideo := ""
    tags := g.tags.getD []
    publishedDate := now
    status := "draft"
    tweetId := tweet.id
    tweetUrl := tweet.url
    twitterEmbed := embed
    slug_te := g.slug_te.getD ""
    tags_te := g.tags_te.getD []
    typeTag := none }

/-- The article variant 2 `processTweetId` constructs (src/index.js lines 724-743). -/
def mkArticleV2 (tweet : Tweet) (g : GeminiTweetData) (embed : String) (now : Int) : Article :=
  { title := g.title.getD ""
    slug := g.slug.getD ""
    summary := g.summary.getD ""
    content := g.summary.getD ""
    liveContent := g.summary.getD ""
    isFullArticle := false
    author := "Vijay"
    category := "news"
    featuredImage := tweet.mediaUrl
    featuredVideo := ""
    tags := g.tags.getD []
    publishedDate := now
    status := "published"
    tweetId := tweet.id
    tweetUrl := tweet.url
    twitterEmbed := embed
    slug_te := g.slug_te.getD ""
    tags_te := g.tags_te.getD []
    typeTag := some "twitter" }

/-- Variant 1 `processTweetId` (src/index.js lines 192-271): fetch by id,
transform, build embed, save; every fault is caught and mapped to
`{success: false, id, reason: error.message}`. -/
def processTweetId (env : ProcEnv) (tweetId : String) : ProcResult :=
  match env.fetch with
  | .transportError m => .failure tweetId m
  | .httpError st =>
    .failure tweetId ("Twitter API request failed with status " ++ toString st)
  | .jsonError m => .failure tweetId m
  | .success body =>
    match body.status, body.tweets with
    | some "success", some (tweet :: _) =>
      let g := formatTweetWithGemini tweet.text env.svc env.parse env.now
      let embed := mkTwitterEmbed tweet (env.formatDate tweet.createdAt)
      let article := mkArticleV1 tweet g embed env.now
      (match env.save with
       | .saved => .success article
       | .dbError _ m => .failure tweetId m)
    | _, _ => .failure tweetId "Not found or API error"

/-- Variant 2 `processTweetId` (src/index.js lines 699-750): no `data.status`
check, only `data?.tweets?.[0]`. -/
def processTweetIdV2 (env : ProcEnv) (tweetId : String) : ProcResult :=
  match env.fetch with
  | .transportError m => .failure tweetId m
  | .httpError _ => .failure tweetId "Twitter API request failed"
  | .jsonError m => .failure tweetId m
  | .success body =>
    match body.tweets with
    | some (tweet :: _) =>
      let g := formatTweetWithGeminiV2 tweet.text env.svc env.parse env.now
      let embed := mkTwitterEmbedV2 tweet
      let article := mkArticleV2 tweet g embed env.now
      (match env.save with
       | .saved => .success article
       | .dbError _ m => .failure tweetId m)
    | _ => .failure tweetId "Tweet not found"

/-- The per-id loop of the ingest endpoints (src/index.js lines 288-295 and
763-766): each id yields exactly one entry, pushed to `successfulPosts` or
`failedIds`.  `step i id` is the `processTweetId` call for the id at position
`i` against that call's external environment. -/
def runBatch (step : Nat → String → ProcResult) : Nat → List String → List Article × List (String × String)
  | _, [] => ([], [])
  | i, id :: rest =>
    let r := step i id
    let restRes := runBatch step (i + 1) rest
    match r with
    | .success a => (a :: restRes.1, restRes.2)
    | .failure fid reason => (restRes.1, (fid, reason) :: restRes.2)

/-- Response of `POST /api/fetch-tweet-and-save` (variant 1). -/
inductive IngestResponse where
  | badRequest (msg : String)
  | ok (message : String) (successfulPosts : List Article) (failedIds : List (String × String))

/-- Variant 1 `POST /api/fetch-tweet-and-save` (src/index.js lines 276-302):
validation, then the per-id loop.  `tweetIds = none` models a missing or
non-array body field. -/
def fetchTweetAndSavePost (tweetIds : Option (List String)) (env : Nat → ProcEnv) : IngestResponse :=
  match tweetIds with
  | none => .badRequest "tweet_ids must be a non-empty array."
  | some [] => .badRequest "tweet_ids must be a non-empty array."
  | some ids =>
    let res := runBatch (fun i id => processTweetId (env i) id) 0 ids
    .ok ("Processed " ++ toString res.1.length ++ " of " ++ toString ids.length ++ " tweets.")
      res.1 res.2

/-! ## Dedup cache and the author-mode pipeline -/

/-- The process-local dedup cache `processedTweetCache`: external id →
last-attempt timestamp (ms).  Absent entry = never attempted. -/
def Cache : Type := String → Option Int

/-- `CACHE_DURATION_MS = 12 * 60 * 60 * 1000` (src/index.js lines 24 and 581). -/
def CACHE_DURATION_MS : Int := 12 * 60 * 60 * 1000

/-- The cache test `cacheEntry && (now - cacheEntry < CACHE_DURATION_MS)`
(src/index.js lines 381 and 812).  JS number truthiness makes a zero
timestamp falsy. -/
def isRecentlyProcessed (cache : Cache) (now : Int) (id : String) : Bool :=
  match cache id with
  | none => false
  | some ts => !(decide (ts = 0)) && decide (now - ts < CACHE_DURATION_MS)

/-- `processedTweetCache.set(id, now)` (src/index.js lines 402 and 825). -/
def markProcessed (cache : Cache) (id : String) (now : Int) : Cache :=
  fun x => if x = id then some now else cache x

/-- The partition loop of the author-mode endpoints (src/index.js lines 377-386
and 809-817): recently-processed tweets go to `skippedCachedIds`, the rest to
`tweetsToProcess`, preserving order. -/
def partitionByCache (cache : Cache) (now : Int) : List Tweet → List Tweet × List String
  | [] => ([], [])
  | t :: ts =>
    let rest := partitionByCache cache now ts
    if isRecentlyProcessed cache now t.id then (rest.1, t.id :: rest.2)
    else (t :: rest.1, rest.2)

/-- The processing loop of the author-mode endpoints (src/index.js lines
392-403 and 822-826): per filtered tweet, call `processTweetId`, record the
outcome, then unconditionally `processedTweetCache.set(tweetId, now)` with the
`now` captured before the loop. -/
def processCachedLoop (step : Nat → String → ProcResult) (now : Int) :
    Nat → Cache → List Tweet → List Article × List (String × String) × Cache
  | _, cache, [] => ([], [], cache)
  | i, cache, t :: ts =>
    let r := step i t.id
    let cache' := markProcessed cache t.id now
    let rest := processCachedLoop step now (i + 1) cache' ts
    match r with
    | .success a => (a :: rest.1, rest.2.1, rest.2.2)
    | .failure fid reason => (rest.1, (fid, reason) :: rest.2.1, rest.2.2)

/-- Aggregate result of one author-mode run, plus the cache state it leaves. -/
structure AuthorRunResult where
  successfulPosts : List Article
  failedIds : List (String × String)
  skippedCachedIds : List String
  cacheAfter : Cache

/-- Steps 2-3 of the author-mode endpoints: partition against the cache, then
process only the non-skipped tweets. -/
def processUserTweets (step : Nat → String → ProcResult) (cache : Cache) (now : Int)
    (tweets : List Tweet) : AuthorRunResult :=
  let part := partitionByCache cache now tweets
  let run := processCachedLoop step now 0 cache part.1
  { successfulPosts := run.1
    failedIds := run.2.1
    skippedCachedIds := part.2
    cacheAfter := run.2.2 }

/-- Response of `GET /api/fetch-user-last-tweets`. -/
inductive UserTweetsResponse where
  | badRequest (msg : String)
  | serverError (details : String)
  | ok (result : AuthorRunResult)

/-- Variant 1 `GET /api/fetch-user-last-tweets` (src/index.js lines 342-420):
missing `userName` → 400; any thrown fault (transport, non-ok status, bad
JSON, `status !== "success"`, missing `tweets` field) → 500 with the error
message as details; otherwise the pipeline runs on `data.tweets`. -/
def fetchUserLastTweets (userName : Option String) (ufetch : FetchOutcome)
    (step : Nat → String → ProcResult) (cache : Cache) (now : Int) : UserTweetsResponse :=
  match userName with
  | none => .badRequest "username query parameter is required."
  | some u =>
    if u = "" then .badRequest "username query parameter is required."
    else
      match ufetch with
      | .transportError m => .serverError m
      | .httpError st =>
        .serverError ("Twitter User API request failed with status " ++ toString st)
      | .jsonError m => .serverError m
      | .success body =>
        match body.status, body.tweets with
        | some "success", some tws => .ok (processUserTweets step cache now tws)
        | _, _ => .serverError "Not found or Twitter API error"

/-- Variant 2 upstream payload: the handler probes `data?.tweets`,
`data?.data?.tweets`, `data?.items` in order. -/
structure V2UserPayload where
  tweets : Option (List Tweet)
  dataTweets : Option (List Tweet)
  items : Option (List Tweet)

/-- Outcome of the variant 2 user fetch: it never checks `response.ok`, so the
only faults are a rejected `fetch` or a throwing `.json()`. -/
inductive V2FetchOutcome where
  | transportError (msg : String)
  | jsonError (msg : String)
  | payload (body : V2UserPayload)

/-- `data?.tweets ?? data?.data?.tweets ?? data?.items ?? []`, with a non-array
value or total absence normalized to `[]` (src/index.js lines 800-803). -/
def resolveV2Tweets (b : V2UserPayload) : List Tweet :=
  match b.tweets with
  | some l => l
  | none =>
    match b.dataTweets with
    | some l => l
    | none =>
      match b.items with
      | some l => l
      | none => []

/-- Variant 2 `GET /api/fetch-user-last-tweets` (src/index.js lines 788-832). -/
def fetchUserLastTweetsV2 (userName : Option String) (ufetch : V2FetchOutcome)
    (step : Nat → String → ProcResult) (cache : Cache) (now : Int) : UserTweetsResponse :=
  match userName with
  | none => .badRequest "username required"
  | some u =>
    if u = "" then .badRequest "username required"
    else
      match ufetch with
      | .transportError m => .serverError m
      | .jsonError m => .serverError m
      | .payload b => .ok (processUserTweets step cache now (resolveV2Tweets b))

/-! ## Free-text transform and update endpoints -/

/-- Observable outcome of one `POST /api/summarize-text` request:
the HTTP status, whether the Gemini upstream was invoked, and the payload. -/
structure SummarizeResponse where
  statusCode : Nat
  upstreamCalled : Bool
  data : Option GeminiTextData
deriving Repr, DecidableEq

/-- Variant 1 `POST /api/summarize-text` (src/index.js lines 423-443):
`!text || !instruction` → 400 before any upstream call. -/
def summarizeText (text instruction : Option String) (svc : GeminiService)
    (parse : String → Except String GeminiTextData) : SummarizeResponse :=
  match text, instruction with
  | some t, some ins =>
    if t = "" then { statusCode := 400, upstreamCalled := false, data := none }
    else if ins = "" then { statusCode := 400, upstreamCalled := false, data := none }
    else { statusCode := 200, upstreamCalled := true,
           data := some (formatTextWithGemini t ins svc parse) }
  | _, _ => { statusCode := 400, upstreamCalled := false, data := none }

/-- Variant 2 `POST /api/summarize-text` (src/index.js lines 849-854): no
validation at all — the Gemini call is made even with missing fields, absent
values interpolating into the prompt as "undefined". -/
def summarizeTextV2 (text instruction : Option String) (svc : GeminiService)
    (parse : String → Except String GeminiTextData) (tyErrMsg : String) : SummarizeResponse :=
  { statusCode := 200
    upstreamCalled := true
    data := some (formatTextWithGeminiV2 (jsInterp text) (jsInterp instruction) svc parse tyErrMsg) }

/-- Outcome of `Article.findByIdAndUpdate`: the updated document, `null`
(no such id), or a rejection carrying an optional Mongo error `code`. -/
inductive UpdateDbOutcome where
  | updated (a : Article)
  | missing
  | dbError (code : Option Nat) (msg : String)

/-- Response of `POST /api/update-article/:id`. -/
inductive UpdateResponse where
  | invalidId (msg : String)
  | notFound (msg : String)
  | conflict (msg : String)
  | serverError (msg : String)
  | ok (a : Article)
deriving Repr, DecidableEq

/-- HTTP status carried by each `UpdateResponse` branch. -/
def UpdateResponse.statusCode : UpdateResponse → Nat
  | .invalidId _ => 400
  | .notFound _ => 404
  | .conflict _ => 409
  | .serverError _ => 500
  | .ok _ => 200

/-- Variant 1 `POST /api/update-article/:id` (src/index.js lines 446-491):
invalid ObjectId → 400; null document → 404; `error.code === 11000` → 409;
other rejection → 500. -/
def updateArticle (idValid : Bool) (db : UpdateDbOutcome) : UpdateResponse :=
  if !idValid then .invalidId "Invalid Article ID format."
  else
    match db with
    | .updated a => .ok a
    | .missing => .notFound "Article not found."
    | .dbError code msg =>
      if code = some 11000 then .conflict "Update failed: Duplicate key."
      else .serverError msg

/-- Variant 2 `POST /api/update-article/:id` (src/index.js lines 859-872):
no ObjectId validation and no duplicate-key branch — every rejection,
including a Mongo 11000 duplicate-key error, becomes a 500. -/
def updateArticleV2 (db : UpdateDbOutcome) : UpdateResponse :=
  match db with
  | .updated a => .ok a
  | .missing => .notFound "Not found"
  | .dbError _ msg => .serverError msg

/-! ## Helper lemmas -/

theorem string_eq_empty_iff_data (s : String) : s = "" ↔ s.data = [] := by
  constructor
  · intro h; subst h; rfl
  · intro h
    obtain ⟨d⟩ := s
    simp only [String.data] at h
    subst h; rfl

theorem append_left_ne_empty (s t : String) (hs : s ≠ "") : s ++ t ≠ "" := by
  intro h
  rw [string_eq_empty_iff_data] at h
  have hs' : s.data ≠ [] := fun hd => hs ((string_eq_empty_iff_data s).mpr hd)
  obtain ⟨a⟩ := s
  obtain ⟨b⟩ := t
  simp only [String.data] at h hs'
  have hd : (String.mk a ++ String.mk b).data = a ++ b := rfl
  rw [hd] at h
  exact hs' (List.append_eq_nil.mp h).1

theorem jsSlice_ne_empty (s : String) (n : Nat) (hs : s ≠ "") (hn : n ≠ 0) :
    jsSlice s n ≠ "" := by
  intro h
  rw [string_eq_empty_iff_data] at h
  have hs' : s.data ≠ [] := fun hd => hs ((string_eq_empty_iff_data s).mpr hd)
  simp only [jsSlice, String.data] at h
  rcases List.take_eq_nil_iff.mp h with h0 | hnil
  · exact hn h0
  · exact hs' hnil

theorem runBatch_len (step : Nat → String → ProcResult) (i : Nat) (ids : List String) :
    (runBatch step i ids).1.length + (runBatch step i ids).2.length = ids.length := by
  induction ids generalizing i with
  | nil => simp [runBatch]
  | cons id rest ih =>
    simp only [runBatch]
    cases step i id <;> simp only [List.length_cons] <;>
      have := ih (i + 1) <;> omega

theorem runBatch_mem (step : Nat → String → ProcResult) (i : Nat) (ids : List String)
    (k : Nat) (h : k < ids.length) :
    (∀ a, step (i + k) (ids.get ⟨k, h⟩) = .success a → a ∈ (runBatch step i ids).1) ∧
    (∀ fid reason, step (i + k) (ids.get ⟨k, h⟩) = .failure fid reason →
      (fid, reason) ∈ (runBatch step i ids).2) := by
  induction ids generalizing i k with
  | nil => exact absurd h (Nat.not_lt_zero k)
  | cons id rest ih =>
    cases k with
    | zero =>
      constructor
      · intro a ha
        simp only [runBatch, List.get]
        simp only [List.get, Nat.add_zero] at ha
        rw [ha]; exact List.mem_cons_self _ _
      · intro fid reason hf
        simp only [runBatch, List.get]
        simp only [List.get, Nat.add_zero] at hf
        rw [hf]; exact List.mem_cons_self _ _
    | succ k' =>
      have h' : k' < rest.length := Nat.lt_of_succ_lt_succ h
      have harg : i + (k' + 1) = (i + 1) + k' := by omega
      constructor
      · intro a ha
        simp only [List.get] at ha
        rw [harg] at ha
        have := (ih (i + 1) k' h').1 a ha
        simp only [runBatch]
        cases step i id <;> simp [this]
      · intro fid reason hf
        simp only [List.get] at hf
        rw [harg] at hf
        have := (ih (i + 1) k' h').2 fid reason hf
        simp only [runBatch]
        cases step i id <;> simp [this]

theorem partitionByCache_eq_filter (cache : Cache) (now : Int) (tweets : List Tweet) :
    partitionByCache cache now tweets =
      (tweets.filter (fun t => !(isRecentlyProcessed cache now t.id)),
       (tweets.filter (fun t => isRecentlyProcessed cache now t.id)).map Tweet.id) := by
  induction tweets with
  | nil => rfl
  | cons t ts ih =>
    simp only [partitionByCache, ih, List.filter]
    cases h : isRecentlyProcessed cache now t.id <;> simp [h]

theorem processCachedLoop_cacheAfter (step : Nat → String → ProcResult) (now : Int)
    (i : Nat) (cache : Cache) (tweets : List Tweet) (x : String) :
    (processCachedLoop step now i cache tweets).2.2 x =
      if x ∈ tweets.map Tweet.id then some now else cache x := by
  induction tweets generalizing i cache with
  | nil => simp [processCachedLoop]
  | cons t ts ih =>
    have htail : ∀ c : Cache,
        (match step i t.id with
          | .success a => (a :: (processCachedLoop step now (i+1) c ts).1,
              (processCachedLoop step now (i+1) c ts).2.1,
              (processCachedLoop step now (i+1) c ts).2.2)
          | .failure fid reason => ((processCachedLoop step now (i+1) c ts).1,
              (fid, reason) :: (processCachedLoop step now (i+1) c ts).2.1,
              (processCachedLoop step now (i+1) c ts).2.2)).2.2 =
        (processCachedLoop step now (i+1) c ts).2.2 := by
      intro c; cases step i t.id <;> rfl
    simp only [processCachedLoop]
    rw [htail]
    rw [ih (i + 1) (markProcessed cache t.id now)]
    by_cases hts : x ∈ ts.map Tweet.id
    · simp [hts]
    · by_cases hx : x = t.id
      · simp [hts, hx, markProcessed]
      · simp [hts, hx, markProcessed]

/-- The field guarantees `formatTweetWithGemini` (variant 1) actually provides:
all six fields present; `slug` and `slug_te` non-empty; `title` and `summary`
non-empty whenever the input text is non-empty. -/
def tweetFieldsOk (text : String) (r : GeminiTweetData) : Prop :=
  r.title.isSome = true ∧ r.summary.isSome = true ∧
  (∃ s, r.slug = some s ∧ s ≠ "") ∧ r.tags.isSome = true ∧
  (∃ s, r.slug_te = some s ∧ s ≠ "") ∧ r.tags_te.isSome = true ∧
  (text ≠ "" → (∃ s, r.title = some s ∧ s ≠ "") ∧ (∃ s, r.summary = some s ∧ s ≠ ""))

theorem tweetFieldsOk_fallback (text : String) (now : Int) :
    tweetFieldsOk text (tweetFallback text now) := by
  refine ⟨rfl, rfl, ⟨_, rfl, ?_⟩, rfl, ⟨_, rfl, ?_⟩, rfl, ?_⟩
  · exact append_left_ne_empty "fallback-" _ (by decide)
  · exact append_left_ne_empty "fallback-te-" _ (by decide)
  · intro ht
    exact ⟨⟨_, rfl, jsSlice_ne_empty text 50 ht (by decide)⟩, ⟨_, rfl, ht⟩⟩

theorem jsTruthyStr_eq_true (o : Option String) (h : jsTruthyStr o = true) :
    ∃ s, o = some s ∧ s ≠ "" := by
  cases o with
  | none => simp [jsTruthyStr] at h
  | some s =>
    refine ⟨s, rfl, ?_⟩
    simp only [jsTruthyStr, Bool.not_eq_true'] at h
    exact of_decide_eq_false h

theorem tweetFieldsOk_valid (text : String) (p : GeminiTweetData)
    (h : validTweetData p = true) : tweetFieldsOk text p := by
  simp only [validTweetData, Bool.and_eq_true] at h
  obtain ⟨⟨⟨⟨⟨h1, h2⟩, h3⟩, h4⟩, h5⟩, h6⟩ := h
  obtain ⟨t, ht, htn⟩ := jsTruthyStr_eq_true _ h1
  obtain ⟨u, hu, hun⟩ := jsTruthyStr_eq_true _ h2
  obtain ⟨v, hv, hvn⟩ := jsTruthyStr_eq_true _ h3
  obtain ⟨w, hw, hwn⟩ := jsTruthyStr_eq_true _ h5
  refine ⟨by rw [ht]; rfl, by rw [hu]; rfl, ⟨v, hv, hvn⟩, ?_, ⟨w, hw, hwn⟩, ?_, ?_⟩
  · cases hp : p.tags with
    | none => rw [hp] at h4; simp [jsTruthyArr] at h4
    | some l => rfl
  · cases hp : p.tags_te with
    | none => rw [hp] at h6; simp [jsTruthyArr] at h6
    | some l => rfl
  · intro _
    exact ⟨⟨t, ht, htn⟩, ⟨u, hu, hun⟩⟩

/-- **C1** (counterexample). The claim fails on the code in two ways: with an
empty input text and a faulting Gemini call, the fallback's `title` is the
empty string; and on the success path the truthiness validation accepts an
empty `tags` array (JS arrays are always truthy), so `tags` can come back
empty.  Both refute "all six fields ... non-empty" for "every input text". -/
theorem formatTweet_counterexample :
    (formatTweetWithGemini "" (fun _ => .fault "network error") (fun _ => .error "e") 0).title
      = some "" ∧
    (formatTweetWithGemini "hello" (fun _ => .ok (some "x"))
      (fun _ => .ok ⟨some "త", some "స", some "s", some [], some "తె", some ["వా"]⟩) 0).tags
      = some [] := by
  exact ⟨rfl, rfl⟩

/-- **C1** (amended). `formatTweetWithGemini` never fails outward.  In variant 1
the result always has all six fields present with `slug` and `slug_te`
non-empty, and `title`/`summary` also non-empty whenever the input text is
non-empty (the fallback copies the input text, so an empty input yields empty
`title`/`summary`; the success-path validation accepts empty tag arrays).
Variant 2 either passes the parsed record through unvalidated or returns its
deterministic fallback — it too never fails outward. -/
theorem formatTweet_amended_total (text : String) (svc : GeminiService)
    (parse : String → Except String GeminiTweetData) (now : Int) :
    tweetFieldsOk text (formatTweetWithGemini text svc parse now) ∧
    ((∃ raw p, svc (tweetPromptV2 text) = .ok (some raw) ∧
        parse (cleanGeminiResponseV2 raw) = .ok p ∧
        formatTweetWithGeminiV2 text svc parse now = p) ∨
      formatTweetWithGeminiV2 text svc parse now = tweetFallbackV2 text now) := by
  constructor
  · cases hsvc : svc (tweetPrompt text) with
    | fault m =>
      simp only [formatTweetWithGemini, hsvc]
      exact tweetFieldsOk_fallback text now
    | ok rt =>
      cases rt with
      | none =>
        simp only [formatTweetWithGemini, hsvc]
        exact tweetFieldsOk_fallback text now
      | some raw =>
        by_cases hraw : raw = ""
        · subst hraw
          simp only [formatTweetWithGemini, hsvc, if_true]
          exact tweetFieldsOk_fallback text now
        · cases hp : parse (cleanGeminiResponse raw) with
          | error e =>
            simp only [formatTweetWithGemini, hsvc, if_neg hraw, hp]
            exact tweetFieldsOk_fallback text now
          | ok p =>
            by_cases hv : validTweetData p = true
            · simp only [formatTweetWithGemini, hsvc, if_neg hraw, hp, if_pos hv]
              exact tweetFieldsOk_valid text p hv
            · simp only [formatTweetWithGemini, hsvc, if_neg hraw, hp, if_neg hv]
              exact tweetFieldsOk_fallback text now
  · cases hsvc : svc (tweetPromptV2 text) with
    | fault m =>
      right
      simp only [formatTweetWithGeminiV2, hsvc]
    | ok rt =>
      cases rt with
      | none =>
        right
        simp only [formatTweetWithGeminiV2, hsvc]
      | some raw =>
        cases hp : parse (cleanGeminiResponseV2 raw) with
        | error e =>
          right
          simp only [formatTweetWithGeminiV2, hsvc, hp]
        | ok p =>
          exact Or.inl ⟨raw, p, rfl, hp, by simp only [formatTweetWithGeminiV2, hsvc, hp]⟩

/-- **C1** (witness): the amended theorem applied at a concrete faulting
environment and non-empty text. -/
theorem formatTweet_amended_total_witness :
    tweetFieldsOk "hello"
      (formatTweetWithGemini "hello" (fun _ => .fault "err") (fun _ => .error "e") 0) ∧
    ((∃ raw p, (fun _ => GeminiCall.fault "err") (tweetPromptV2 "hello") = .ok (some raw) ∧
        (fun _ => (Except.error "e" : Except String GeminiTweetData)) (cleanGeminiResponseV2 raw) = .ok p ∧
        formatTweetWithGeminiV2 "hello" (fun _ => .fault "err") (fun _ => .error "e") 0 = p) ∨
      formatTweetWithGeminiV2 "hello" (fun _ => .fault "err") (fun _ => .error "e") 0 =
        tweetFallbackV2 "hello" 0) :=
  formatTweet_amended_total "hello" (fun _ => .fault "err") (fun _ => .error "e") 0

/-- **C8** (counterexample). In variant 2 the fallback title is `"Error"`, not
`"Error in Processing"` as the claim states for every fault. -/
theorem freeText_fallback_title_counterexample :
    formatTextWithGeminiV2 "t" "i" (fun _ => .fault "boom") (fun _ => .error "e") "ty" =
      { title := some "Error", summary := some "boom" } ∧
    (some "Error" : Option String) ≠ some "Error in Processing" := by
  exact ⟨rfl, by decide⟩

/-- **C8** (amended). Neither variant of `formatTextWithGemini` fails outward.
On any fault (rejected call, missing/empty response text, parse failure, and
in variant 1 a failed field validation) variant 1 returns
`{title: "Error in Processing", summary: <failure detail>}` while variant 2
returns `{title: "Error", summary: <failure detail>}`. -/
theorem freeText_fallback_amended (text insn : String) (svc : GeminiService)
    (parse : String → Except String GeminiTextData) (tyMsg : String) :
    (∀ m, svc (freeTextPrompt text insn) = .fault m →
      formatTextWithGemini text insn svc parse =
        { title := some "Error in Processing", summary := some m }) ∧
    (svc (freeTextPrompt text insn) = .ok none →
      formatTextWithGemini text insn svc parse =
        { title := some "Error in Processing", summary := some "Gemini returned no text." }) ∧
    (∀ raw e, svc (freeTextPrompt text insn) = .ok (some raw) → raw ≠ "" →
      parse (cleanGeminiResponse raw) = .error e →
      formatTextWithGemini text insn svc parse =
        { title := some "Error in Processing", summary := some e }) ∧
    (∀ raw p, svc (freeTextPrompt text insn) = .ok (some raw) → raw ≠ "" →
      parse (cleanGeminiResponse raw) = .ok p →
      (jsTruthyStr p.title && jsTruthyStr p.summary) = false →
      formatTextWithGemini text insn svc parse =
        { title := some "Error in Processing",
          summary := some "Gemini returned incomplete JSON data (missing title or summary)." }) ∧
    (∀ m, svc (freeTextPromptV2 text insn) = .fault m →
      formatTextWithGeminiV2 text insn svc parse tyMsg =
        { title := some "Error", summary := some m }) ∧
    (svc (freeTextPromptV2 text insn) = .ok none →
      formatTextWithGeminiV2 text insn svc parse tyMsg =
        { title := some "Error", summary := some tyMsg }) ∧
    (∀ raw e, svc (freeTextPromptV2 text insn) = .ok (some raw) →
      parse (cleanGeminiResponseV2 raw) = .error e →
      formatTextWithGeminiV2 text insn svc parse tyMsg =
        { title := some "Error", summary := some e }) := by
  refine ⟨?_, ?_, ?_, ?_, ?_, ?_, ?_⟩
  · intro m hm; simp only [formatTextWithGemini, hm]
  · intro hm; simp only [formatTextWithGemini, hm]
  · intro raw e hsvc hraw hp
    simp only [formatTextWithGemini, hsvc, if_neg hraw, hp]
  · intro raw p hsvc hraw hp hval
    simp only [formatTextWithGemini, hsvc, if_neg hraw, hp]
    simp [hval]
  · intro m hm; simp only [formatTextWithGeminiV2, hm]
  · intro hm; simp only [formatTextWithGeminiV2, hm]
  · intro raw e hsvc hp
    simp only [formatTextWithGeminiV2, hsvc, hp]

/-- **C8** (witness): the amended theorem at a concrete faulting environment. -/
theorem freeText_fallback_amended_witness :
    (∀ m, (fun _ => GeminiCall.fault "boom") (freeTextPrompt "t" "i") = .fault m →
      formatTextWithGemini "t" "i" (fun _ => .fault "boom") (fun _ => .error "e") =
        { title := some "Error in Processing", summary := some m }) ∧
    ((fun _ => GeminiCall.fault "boom") (freeTextPrompt "t" "i") = .ok none →
      formatTextWithGemini "t" "i" (fun _ => .fault "boom") (fun _ => .error "e") =
        { title := some "Error in Processing", summary := some "Gemini returned no text." }) ∧
    (∀ raw e, (fun _ => GeminiCall.fault "boom") (freeTextPrompt "t" "i") = .ok (some raw) → raw ≠ "" →
      (fun _ => (Except.error "e" : Except String GeminiTextData)) (cleanGeminiResponse raw) = .error e →
      formatTextWithGemini "t" "i" (fun _ => .fault "boom") (fun _ => .error "e") =
        { title := some "Error in Processing", summary := some e }) ∧
    (∀ raw p, (fun _ => GeminiCall.fault "boom") (freeTextPrompt "t" "i") = .ok (some raw) → raw ≠ "" →
      (fun _ => (Except.error "e" : Except String GeminiTextData)) (cleanGeminiResponse raw) = .ok p →
      (jsTruthyStr p.title && jsTruthyStr p.summary) = false →
      formatTextWithGemini "t" "i" (fun _ => .fault "boom") (fun _ => .error "e") =
        { title := some "Error in Processing",
          summary := some "Gemini returned incomplete JSON data (missing title or summary)." }) ∧
    (∀ m, (fun _ => GeminiCall.fault "boom") (freeTextPromptV2 "t" "i") = .fault m →
      formatTextWithGeminiV2 "t" "i" (fun _ => .fault "boom") (fun _ => .error "e") "ty" =
        { title := some "Error", summary := some m }) ∧
    ((fun _ => GeminiCall.fault "boom") (freeTextPromptV2 "t" "i") = .ok none →
      formatTextWithGeminiV2 "t" "i" (fun _ => .fault "boom") (fun _ => .error "e") "ty" =
        { title := some "Error", summary := some "ty" }) ∧
    (∀ raw e, (fun _ => GeminiCall.fault "boom") (freeTextPromptV2 "t" "i") = .ok (some raw) →
      (fun _ => (Except.error "e" : Except String GeminiTextData)) (cleanGeminiResponseV2 raw) = .error e →
      formatTextWithGeminiV2 "t" "i" (fun _ => .fault "boom") (fun _ => .error "e") "ty" =
        { title := some "Error", summary := some e }) :=
  freeText_fallback_amended "t" "i" (fun _ => .fault "boom") (fun _ => .error "e") "ty"

/-! ## Batch processing (C2) and processTweetId totality (C9) -/

/-- A Gemini service that always rejects (upstream unreachable). -/
def faultSvc : GeminiService := fun _ => .fault "err"

/-- A JSON parse that always throws. -/
def faultParse : String → Except String GeminiTweetData := fun _ => .error "err"

/-- Environment in which the Twitter fetch itself rejects. -/
def failEnv : ProcEnv :=
  { fetch := .transportError "fetch failed"
    svc := faultSvc
    parse := faultParse
    now := 0
    formatDate := fun s => s
    save := .dbError none "db" }

/-- **C2** (counterexample). The ingest loop processes every *position* of the
input array, so with the duplicate list `["A", "A"]` (both attempts failing)
`|succeeded| + |failed| = 2`, not the size `1` of the input id *set*; the id
`"A"` appears twice in the failure list rather than "in exactly one" entry. -/
theorem processIds_set_size_counterexample :
    (runBatch (fun _ id => processTweetId failEnv id) 0 ["A", "A"]).1.length +
      (runBatch (fun _ id => processTweetId failEnv id) 0 ["A", "A"]).2.length ≠
      (["A", "A"] : List String).dedup.length := by
  decide

/-- **C2** (amended). For every input *list* of ids,
`|succeeded| + |failed|` equals the *length of the list* (which is the size of
the id set when the ids are distinct), and each position contributes exactly
its own outcome: a successful item's record lands in `succeeded` and a failed
item's `{id, reason}` entry lands in `failed`, independently of the outcomes
of the other items. -/
theorem processIds_amended_counts (env : Nat → ProcEnv) (ids : List String) :
    (runBatch (fun i id => processTweetId (env i) id) 0 ids).1.length +
      (runBatch (fun i id => processTweetId (env i) id) 0 ids).2.length = ids.length ∧
    (∀ (k : Nat) (h : k < ids.length),
      (∀ a, processTweetId (env k) (ids.get ⟨k, h⟩) = .success a →
        a ∈ (runBatch (fun i id => processTweetId (env i) id) 0 ids).1) ∧
      (∀ fid reason, processTweetId (env k) (ids.get ⟨k, h⟩) = .failure fid reason →
        (fid, reason) ∈ (runBatch (fun i id => processTweetId (env i) id) 0 ids).2)) := by
  refine ⟨runBatch_len _ 0 ids, ?_⟩
  intro k h
  have := runBatch_mem (fun i id => processTweetId (env i) id) 0 ids k h
  simpa using this

/-- **C2** (witness): the amended theorem at a concrete two-element input. -/
theorem processIds_amended_counts_witness :
    (runBatch (fun i id => processTweetId ((fun _ => failEnv) i) id) 0 ["A", "B"]).1.length +
      (runBatch (fun i id => processTweetId ((fun _ => failEnv) i) id) 0 ["A", "B"]).2.length =
      (["A", "B"] : List String).length ∧
    (∀ (k : Nat) (h : k < (["A", "B"] : List String).length),
      (∀ a, processTweetId ((fun _ => failEnv) k) ((["A", "B"] : List String).get ⟨k, h⟩) = .success a →
        a ∈ (runBatch (fun i id => processTweetId ((fun _ => failEnv) i) id) 0 ["A", "B"]).1) ∧
      (∀ fid reason,
        processTweetId ((fun _ => failEnv) k) ((["A", "B"] : List String).get ⟨k, h⟩) = .failure fid reason →
        (fid, reason) ∈ (runBatch (fun i id => processTweetId ((fun _ => failEnv) i) id) 0 ["A", "B"]).2)) :=
  processIds_amended_counts (fun _ => failEnv) ["A", "B"]

/-- Failure entries keep the id the caller passed in. -/
def goodShape (id : String) : ProcResult → Prop
  | .success _ => True
  | .failure fid _ => fid = id

/-- Failure entries carry a non-empty reason. -/
def reasonNonempty : ProcResult → Prop
  | .success _ => True
  | .failure _ r => r ≠ ""

theorem processTweetId_goodShape (env : ProcEnv) (id : String) :
    goodShape id (processTweetId env id) := by
  cases hf : env.fetch with
  | transportError m => simp [processTweetId, hf, goodShape]
  | httpError st => simp [processTweetId, hf, goodShape]
  | jsonError m => simp [processTweetId, hf, goodShape]
  | success body =>
    simp only [processTweetId, hf]
    split
    · cases hs : env.save with
      | saved => simp [goodShape]
      | dbError c m => simp [hs, goodShape]
    · simp [goodShape]

theorem processTweetIdV2_goodShape (env : ProcEnv) (id : String) :
    goodShape id (processTweetIdV2 env id) := by
  cases hf : env.fetch with
  | transportError m => simp [processTweetIdV2, hf, goodShape]
  | httpError st => simp [processTweetIdV2, hf, goodShape]
  | jsonError m => simp [processTweetIdV2, hf, goodShape]
  | success body =>
    simp only [processTweetIdV2, hf]
    split
    · cases hs : env.save with
      | saved => simp [goodShape]
      | dbError c m => simp [hs, goodShape]
    · simp [goodShape]

theorem processTweetId_reason_ne (env : ProcEnv) (id : String)
    (h1 : ∀ m, env.fetch = .transportError m → m ≠ "")
    (h2 : ∀ m, env.fetch = .jsonError m → m ≠ "")
    (h3 : ∀ c m, env.save = .dbError c m → m ≠ "") :
    reasonNonempty (processTweetId env id) := by
  cases hf : env.fetch with
  | transportError m =>
    simp only [processTweetId, hf, reasonNonempty]
    exact h1 m hf
  | httpError st =>
    simp only [processTweetId, hf, reasonNonempty]
    exact append_left_ne_empty _ _ (by decide)
  | jsonError m =>
    simp only [processTweetId, hf, reasonNonempty]
    exact h2 m hf
  | success body =>
    simp only [processTweetId, hf]
    split
    · cases hs : env.save with
      | saved => simp [reasonNonempty]
      | dbError c m =>
        simp only [hs, reasonNonempty]
        exact h3 c m hs
    · simp only [reasonNonempty]
      decide

theorem processTweetIdV2_reason_ne (env : ProcEnv) (id : String)
    (h1 : ∀ m, env.fetch = .transportError m → m ≠ "")
    (h2 : ∀ m, env.fetch = .jsonError m → m ≠ "")
    (h3 : ∀ c m, env.save = .dbError c m → m ≠ "") :
    reasonNonempty (processTweetIdV2 env id) := by
  cases hf : env.fetch with
  | transportError m =>
    simp only [processTweetIdV2, hf, reasonNonempty]
    exact h1 m hf
  | httpError st =>
    simp only [processTweetIdV2, hf, reasonNonempty]
    decide
  | jsonError m =>
    simp only [processTweetIdV2, hf, reasonNonempty]
    exact h2 m hf
  | success body =>
    simp only [processTweetIdV2, hf]
    split
    · cases hs : env.save with
      | saved => simp [reasonNonempty]
      | dbError c m =>
        simp only [hs, reasonNonempty]
        exact h3 c m hs
    · simp only [reasonNonempty]
      decide

/-- The tweet used in concrete environments below. -/
def sampleTweet : Tweet :=
  { id := "123"
    text := "hello world"
    authorName := "Name"
    authorUserName := "user"
    url := "https://x.com/user/status/123"
    createdAt := "2024-01-01"
    lang := none
    mediaUrl := none }

/-- Environment whose database save rejects with an *empty* error message. -/
def emptyMsgEnv : ProcEnv :=
  { fetch := .success { status := some "success", tweets := some [sampleTweet] }
    svc := faultSvc
    parse := faultParse
    now := 0
    formatDate := fun _ => "January 1, 2024"
    save := .dbError none "" }

/-- **C9** (counterexample). The reason is copied verbatim from the caught
error's `message`; nothing enforces non-emptiness, so a database rejection
carrying an empty message yields `{success: false, id, reason: ""}`,
contradicting the claimed "non-empty reason string". -/
theorem processTweetId_reason_counterexample :
    processTweetId emptyMsgEnv "123" = .failure "123" "" := by
  rfl

/-- **C9** (amended). Both variants of `processTweetId` are total at their
interface: the result is either `{success: true, data}` or
`{success: false, id, reason}` with the caller's id, every internal exception
being caught and mapped to the failure shape.  The reason is non-empty
whenever the fault is one of the code's own thrown errors; a reason copied
from an external exception (transport, JSON, database) is non-empty only if
that exception's message is. -/
theorem processTweetId_total_amended (env : ProcEnv) (id : String)
    (h1 : ∀ m, env.fetch = .transportError m → m ≠ "")
    (h2 : ∀ m, env.fetch = .jsonError m → m ≠ "")
    (h3 : ∀ c m, env.save = .dbError c m → m ≠ "") :
    ((∃ a, processTweetId env id = .success a) ∨
      (∃ r, processTweetId env id = .failure id r)) ∧
    (∀ fid r, processTweetId env id = .failure fid r → fid = id ∧ r ≠ "") ∧
    ((∃ a, processTweetIdV2 env id = .success a) ∨
      (∃ r, processTweetIdV2 env id = .failure id r)) ∧
    (∀ fid r, processTweetIdV2 env id = .failure fid r → fid = id ∧ r ≠ "") := by
  have hg1 := processTweetId_goodShape env id
  have hg2 := processTweetIdV2_goodShape env id
  have hr1 := processTweetId_reason_ne env id h1 h2 h3
  have hr2 := processTweetIdV2_reason_ne env id h1 h2 h3
  refine ⟨?_, ?_, ?_, ?_⟩
  · cases hq : processTweetId env id with
    | success a => exact Or.inl ⟨a, rfl⟩
    | failure fid r =>
      rw [hq] at hg1
      simp only [goodShape] at hg1
      subst hg1
      exact Or.inr ⟨r, rfl⟩
  · intro fid r hq
    rw [hq] at hg1 hr1
    simp only [goodShape] at hg1
    simp only [reasonNonempty] at hr1
    exact ⟨hg1, hr1⟩
  · cases hq : processTweetIdV2 env id with
    | success a => exact Or.inl ⟨a, rfl⟩
    | failure fid r =>
      rw [hq] at hg2
      simp only [goodShape] at hg2
      subst hg2
      exact Or.inr ⟨r, rfl⟩
  · intro fid r hq
    rw [hq] at hg2 hr2
    simp only [goodShape] at hg2
    simp only [reasonNonempty] at hr2
    exact ⟨hg2, hr2⟩

/-- **C9** (witness): the amended theorem at an environment whose external
error messages are non-empty. -/
theorem processTweetId_total_amended_witness :
    ((∃ a, processTweetId failEnv "42" = .success a) ∨
      (∃ r, processTweetId failEnv "42" = .failure "42" r)) ∧
    (∀ fid r, processTweetId failEnv "42" = .failure fid r → fid = "42" ∧ r ≠ "") ∧
    ((∃ a, processTweetIdV2 failEnv "42" = .success a) ∨
      (∃ r, processTweetIdV2 failEnv "42" = .failure "42" r)) ∧
    (∀ fid r, processTweetIdV2 failEnv "42" = .failure fid r → fid = "42" ∧ r ≠ "") :=
  processTweetId_total_amended failEnv "42"
    (by intro m hm; cases hm; decide)
    (by intro m hm; cases hm)
    (by intro c m hm; cases hm; decide)

/-! ## Dedup cache claims (C3, C4, C10) -/

/-- **C3**. In the author-mode pipeline an id is treated as recently
processed exactly when a cache entry exists and `now - timestamp <
CACHE_DURATION_MS` (strictly), provided reachable cache states hold only
nonzero timestamps (entries are written from `Date.now()`; a zero timestamp
would be falsy in the JS guard).  Recently-processed tweets are exactly the
ones reported in `skippedCachedIds`, and the transform/persist loop runs only
on the non-recent remainder. -/
theorem dedup_recent_skip (cache : Cache) (now : Int) (tweets : List Tweet)
    (step : Nat → String → ProcResult)
    (hpos : ∀ id ts, cache id = some ts → ts ≠ 0) :
    (∀ id, isRecentlyProcessed cache now id = true ↔
      ∃ ts, cache id = some ts ∧ now - ts < CACHE_DURATION_MS) ∧
    (processUserTweets step cache now tweets).skippedCachedIds =
      (tweets.filter (fun t => isRecentlyProcessed cache now t.id)).map Tweet.id ∧
    (processUserTweets step cache now tweets).successfulPosts =
      (processCachedLoop step now 0 cache
        (tweets.filter (fun t => !(isRecentlyProcessed cache now t.id)))).1 ∧
    (processUserTweets step cache now tweets).failedIds =
      (processCachedLoop step now 0 cache
        (tweets.filter (fun t => !(isRecentlyProcessed cache now t.id)))).2.1 := by
  refine ⟨?_, ?_, ?_, ?_⟩
  · intro id
    cases hc : cache id with
    | none =>
      simp [isRecentlyProcessed, hc]
    | some ts =>
      simp only [isRecentlyProcessed, hc, Bool.and_eq_true, Bool.not_eq_true',
        decide_eq_false_iff_not, decide_eq_true_eq]
      constructor
      · rintro ⟨_, hlt⟩
        exact ⟨ts, rfl, hlt⟩
      · rintro ⟨ts', hts', hlt⟩
        cases hts'
        exact ⟨hpos id ts hc, hlt⟩
  · simp [processUserTweets, partitionByCache_eq_filter]
  · simp [processUserTweets, partitionByCache_eq_filter]
  · simp [processUserTweets, partitionByCache_eq_filter]

/-- The all-empty dedup cache. -/
def emptyCache : Cache := fun _ => none

/-- A cache holding one entry: id "A" marked at time 5. -/
def cacheA : Cache := fun id => if id = "A" then some 5 else none

/-- `sampleTweet` with external id "A". -/
def tweetA : Tweet :=
  { id := "A"
    text := "text A"
    authorName := "Name"
    authorUserName := "user"
    url := "https://x.com/user/status/A"
    createdAt := "2024-01-01"
    lang := none
    mediaUrl := none }

/-- **C3** (witness): the theorem at a one-entry cache, a recent timestamp and
a single fetched tweet. -/
theorem dedup_recent_skip_witness :
    (∀ id, isRecentlyProcessed cacheA 6 id = true ↔
      ∃ ts, cacheA id = some ts ∧ 6 - ts < CACHE_DURATION_MS) ∧
    (processUserTweets (fun _ id => .failure id "x") cacheA 6 [tweetA]).skippedCachedIds =
      (([tweetA] : List Tweet).filter (fun t => isRecentlyProcessed cacheA 6 t.id)).map Tweet.id ∧
    (processUserTweets (fun _ id => .failure id "x") cacheA 6 [tweetA]).successfulPosts =
      (processCachedLoop (fun _ id => .failure id "x") 6 0 cacheA
        (([tweetA] : List Tweet).filter (fun t => !(isRecentlyProcessed cacheA 6 t.id)))).1 ∧
    (processUserTweets (fun _ id => .failure id "x") cacheA 6 [tweetA]).failedIds =
      (processCachedLoop (fun _ id => .failure id "x") 6 0 cacheA
        (([tweetA] : List Tweet).filter (fun t => !(isRecentlyProcessed cacheA 6 t.id)))).2.1 :=
  dedup_recent_skip cacheA 6 [tweetA] (fun _ id => .failure id "x")
    (by
      intro id ts h
      simp only [cacheA] at h
      split at h
      · injection h with h'
        omega
      · cases h)

/-- **C4**. After every processing attempt of the author-mode loop — for any
outcome the environment produces, success or failure alike — the dedup cache
maps the attempted tweet's id to the `now` captured before the loop; the
write is unconditional. -/
theorem cache_marked_after_attempt (step : Nat → String → ProcResult) (cache : Cache)
    (now : Int) (tweets : List Tweet) (t : Tweet)
    (hmem : t ∈ (partitionByCache cache now tweets).1) :
    (processUserTweets step cache now tweets).cacheAfter t.id = some now := by
  simp only [processUserTweets]
  rw [processCachedLoop_cacheAfter]
  rw [if_pos (List.mem_map_of_mem Tweet.id hmem)]

/-- **C4** (witness): an attempted tweet (empty cache, so not skipped) whose
processing fails is still marked. -/
theorem cache_marked_after_attempt_witness :
    tweetA ∈ (partitionByCache emptyCache 0 [tweetA]).1 ∧
    (processUserTweets (fun _ id => .failure id "x") emptyCache 0 [tweetA]).cacheAfter tweetA.id =
      some 0 :=
  ⟨by decide, cache_marked_after_attempt (fun _ id => .failure id "x") emptyCache 0 [tweetA] tweetA
    (by decide)⟩

/-- **C10**. An id skipped as recently processed keeps its old cache entry:
only attempted ids are re-marked, so the skipped id's eligibility at any
later time is decided by the timestamp written at its last actual attempt. -/
theorem skipped_id_not_refreshed (step : Nat → String → ProcResult) (cache : Cache)
    (now : Int) (tweets : List Tweet) (id : String)
    (hrec : isRecentlyProcessed cache now id = true) :
    (processUserTweets step cache now tweets).cacheAfter id = cache id ∧
    (∀ now2, isRecentlyProcessed (processUserTweets step cache now tweets).cacheAfter now2 id =
      isRecentlyProcessed cache now2 id) ∧
    (∀ x, x ∉ ((partitionByCache cache now tweets).1.map Tweet.id) →
      (processUserTweets step cache now tweets).cacheAfter x = cache x) := by
  have key : ∀ x, x ∉ ((partitionByCache cache now tweets).1.map Tweet.id) →
      (processUserTweets step cache now tweets).cacheAfter x = cache x := by
    intro x hx
    simp only [processUserTweets]
    rw [processCachedLoop_cacheAfter]
    rw [if_neg hx]
  have hnot : id ∉ ((partitionByCache cache now tweets).1.map Tweet.id) := by
    rw [partitionByCache_eq_filter]
    simp only [List.mem_map, List.mem_filter]
    rintro ⟨t, ⟨_, hfilt⟩, hid⟩
    rw [hid, hrec] at hfilt
    simp at hfilt
  refine ⟨key id hnot, ?_, key⟩
  intro now2
  simp only [isRecentlyProcessed]
  rw [key id hnot]

/-- **C10** (witness): with id "A" cached at time 5 and sighted again at time
6 (inside the TTL), the entry is untouched and later eligibility is computed
from timestamp 5. -/
theorem skipped_id_not_refreshed_witness :
    isRecentlyProcessed cacheA 6 "A" = true ∧
    ((processUserTweets (fun _ id => .failure id "x") cacheA 6 [tweetA]).cacheAfter "A" =
      cacheA "A" ∧
    (∀ now2,
      isRecentlyProcessed
        (processUserTweets (fun _ id => .failure id "x") cacheA 6 [tweetA]).cacheAfter now2 "A" =
      isRecentlyProcessed cacheA now2 "A") ∧
    (∀ x, x ∉ ((partitionByCache cacheA 6 [tweetA]).1.map Tweet.id) →
      (processUserTweets (fun _ id => .failure id "x") cacheA 6 [tweetA]).cacheAfter x =
        cacheA x)) :=
  ⟨by decide,
   skipped_id_not_refreshed (fun _ id => .failure id "x") cacheA 6 [tweetA] "A" (by decide)⟩

/-! ## Duplicate-key surfacing (C5), input validation (C6), author fetch normalization (C7) -/

/-- Environment whose database save rejects with the Mongo duplicate-key code 11000. -/
def dupEnv : ProcEnv :=
  { fetch := .success { status := some "success", tweets := some [sampleTweet] }
    svc := faultSvc
    parse := faultParse
    now := 0
    formatDate := fun _ => "January 1, 2024"
    save := .dbError (some 11000) "E11000 duplicate key" }

/-- **C5** (counterexample). The variant 2 update handler has no
duplicate-key branch: a Mongo 11000 error on a direct update yields a 500,
not the claimed 409 conflict. -/
theorem update_conflict_counterexample :
    (updateArticleV2 (.dbError (some 11000) "dup")).statusCode = 500 ∧
    (updateArticleV2 (.dbError (some 11000) "dup")).statusCode ≠ 409 := by
  exact ⟨rfl, by decide⟩

/-- **C5** (amended). A duplicate-key violation on insert during batch
processing is surfaced as a per-item failure entry carrying the error message
and never aborts the batch (counts still sum to the input length).  On a
direct update call, variant 1 maps code 11000 to an explicit 409 conflict,
but variant 2 returns a generic 500. -/
theorem duplicate_error_amended (env : Nat → ProcEnv) (ids : List String)
    (k : Nat) (hk : k < ids.length) (code : Option Nat) (msg : String) (body : TweetsBody)
    (tweet : Tweet) (rest : List Tweet)
    (hfetch : (env k).fetch = .success body)
    (hstatus : body.status = some "success")
    (htweets : body.tweets = some (tweet :: rest))
    (hsave : (env k).save = .dbError code msg) :
    processTweetId (env k) (ids.get ⟨k, hk⟩) = .failure (ids.get ⟨k, hk⟩) msg ∧
    ((ids.get ⟨k, hk⟩, msg) ∈ (runBatch (fun i id => processTweetId (env i) id) 0 ids).2) ∧
    ((runBatch (fun i id => processTweetId (env i) id) 0 ids).1.length +
      (runBatch (fun i id => processTweetId (env i) id) 0 ids).2.length = ids.length) ∧
    (∀ m, updateArticle true (.dbError (some 11000) m) =
        .conflict "Update failed: Duplicate key." ∧
      (updateArticle true (.dbError (some 11000) m)).statusCode = 409) ∧
    (∀ m, updateArticleV2 (.dbError (some 11000) m) = .serverError m ∧
      (updateArticleV2 (.dbError (some 11000) m)).statusCode = 500) := by
  have hfail : processTweetId (env k) (ids.get ⟨k, hk⟩) = .failure (ids.get ⟨k, hk⟩) msg := by
    simp only [processTweetId, hfetch, hstatus, htweets, hsave]
  refine ⟨hfail, ?_, runBatch_len _ 0 ids, ?_, ?_⟩
  · have := (runBatch_mem (fun i id => processTweetId (env i) id) 0 ids k hk).2
    simp only [Nat.zero_add] at this
    exact this _ _ hfail
  · intro m
    exact ⟨rfl, rfl⟩
  · intro m
    exact ⟨rfl, rfl⟩

/-- **C5** (witness): the amended theorem at a one-element batch whose save
hits a duplicate-key rejection. -/
theorem duplicate_error_amended_witness :
    processTweetId dupEnv "123" = .failure "123" "E11000 duplicate key" ∧
    (("123", "E11000 duplicate key") ∈
      (runBatch (fun i id => processTweetId ((fun _ => dupEnv) i) id) 0 ["123"]).2) ∧
    ((runBatch (fun i id => processTweetId ((fun _ => dupEnv) i) id) 0 ["123"]).1.length +
      (runBatch (fun i id => processTweetId ((fun _ => dupEnv) i) id) 0 ["123"]).2.length =
      (["123"] : List String).length) ∧
    (∀ m, updateArticle true (.dbError (some 11000) m) =
        .conflict "Update failed: Duplicate key." ∧
      (updateArticle true (.dbError (some 11000) m)).statusCode = 409) ∧
    (∀ m, updateArticleV2 (.dbError (some 11000) m) = .serverError m ∧
      (updateArticleV2 (.dbError (some 11000) m)).statusCode = 500) :=
  duplicate_error_amended (fun _ => dupEnv) ["123"] 0 (by decide) (some 11000)
    "E11000 duplicate key" { status := some "success", tweets := some [sampleTweet] }
    sampleTweet [] rfl rfl rfl rfl

/-- A JSON parse for the free-text shape that always throws. -/
def textFaultParse : String → Except String GeminiTextData := fun _ => .error "err"

/-- **C6** (counterexample). The variant 2 `POST /api/summarize-text` endpoint
performs no validation: with `text` missing it still answers 200 and invokes
the Gemini upstream (the response observably depends on the upstream's
answer). -/
theorem validation_counterexample :
    (summarizeTextV2 none (some "summarize") faultSvc textFaultParse "ty").statusCode = 200 ∧
    (summarizeTextV2 none (some "summarize") faultSvc textFaultParse "ty").upstreamCalled = true ∧
    summarizeTextV2 none (some "summarize") (fun _ => .fault "a") textFaultParse "ty" ≠
      summarizeTextV2 none (some "summarize") (fun _ => .fault "b") textFaultParse "ty" := by
  refine ⟨rfl, rfl, ?_⟩
  decide

/-- **C6** (amended). In variant 1, a request missing a required field gets a
400 before any upstream call (the ingest response is independent of the
processing environment, and the free-text endpoint does not invoke Gemini);
in variant 2 the ingest endpoint still rejects a missing `tweet_ids`, but the
free-text endpoint always calls the upstream, even with missing fields. -/
theorem validation_amended (env env2 : Nat → ProcEnv) (svc : GeminiService)
    (parse : String → Except String GeminiTextData)
    (text insn : Option String) (tyMsg : String) :
    (fetchTweetAndSavePost none env = .badRequest "tweet_ids must be a non-empty array." ∧
     fetchTweetAndSavePost (some []) env = .badRequest "tweet_ids must be a non-empty array." ∧
     fetchTweetAndSavePost none env = fetchTweetAndSavePost none env2) ∧
    (jsTruthyStr text = false →
      (summarizeText text insn svc parse).statusCode = 400 ∧
      (summarizeText text insn svc parse).upstreamCalled = false) ∧
    (jsTruthyStr insn = false →
      (summarizeText text insn svc parse).statusCode = 400 ∧
      (summarizeText text insn svc parse).upstreamCalled = false) ∧
    ((summarizeTextV2 text insn svc parse tyMsg).statusCode = 200 ∧
     (summarizeTextV2 text insn svc parse tyMsg).upstreamCalled = true) := by
  refine ⟨⟨rfl, rfl, rfl⟩, ?_, ?_, rfl, rfl⟩
  · intro h
    cases text with
    | none => exact ⟨rfl, rfl⟩
    | some t =>
      have ht : t = "" := by simpa [jsTruthyStr] using h
      subst ht
      cases insn with
      | none => exact ⟨rfl, rfl⟩
      | some ins => exact ⟨rfl, rfl⟩
  · intro h
    cases insn with
    | none =>
      cases text with
      | none => exact ⟨rfl, rfl⟩
      | some t => exact ⟨rfl, rfl⟩
    | some ins =>
      have hi : ins = "" := by simpa [jsTruthyStr] using h
      subst hi
      cases text with
      | none => exact ⟨rfl, rfl⟩
      | some t =>
        by_cases ht : t = ""
        · subst ht
          exact ⟨rfl, rfl⟩
        · constructor <;> simp [summarizeText, ht]

/-- **C6** (witness): the amended theorem with `text` missing. -/
theorem validation_amended_witness :
    (fetchTweetAndSavePost none (fun _ => failEnv) =
        .badRequest "tweet_ids must be a non-empty array." ∧
     fetchTweetAndSavePost (some []) (fun _ => failEnv) =
        .badRequest "tweet_ids must be a non-empty array." ∧
     fetchTweetAndSavePost none (fun _ => failEnv) =
        fetchTweetAndSavePost none (fun _ => emptyMsgEnv)) ∧
    (jsTruthyStr none = false →
      (summarizeText none (some "x") faultSvc textFaultParse).statusCode = 400 ∧
      (summarizeText none (some "x") faultSvc textFaultParse).upstreamCalled = false) ∧
    (jsTruthyStr (some "x") = false →
      (summarizeText none (some "x") faultSvc textFaultParse).statusCode = 400 ∧
      (summarizeText none (some "x") faultSvc textFaultParse).upstreamCalled = false) ∧
    ((summarizeTextV2 none (some "x") faultSvc textFaultParse "ty").statusCode = 200 ∧
     (summarizeTextV2 none (some "x") faultSvc textFaultParse "ty").upstreamCalled = true) :=
  validation_amended (fun _ => failEnv) (fun _ => emptyMsgEnv) faultSvc textFaultParse
    none (some "x") "ty"

/-- **C7** (counterexample). In variant 1 a well-formed-but-tweetless payload
(`status: "success"` with no `tweets` field) is *not* normalized to an empty
list: the handler throws and answers 500, propagating the fault to the
caller. -/
theorem author_fetch_malformed_counterexample :
    fetchUserLastTweets (some "user1") (.success { status := some "success", tweets := none })
      (fun _ id => .failure id "unused") emptyCache 0 =
      .serverError "Not found or Twitter API error" := by
  rfl

/-- **C7** (amended). Variant 2 normalizes an empty or malformed payload to an
empty tweet list and proceeds with zero items (empty result lists, cache
untouched); variant 1 instead answers 500 whenever the payload carries no
`tweets` array. -/
theorem author_fetch_amended (u : String) (hu : u ≠ "")
    (b : V2UserPayload) (hb : resolveV2Tweets b = [])
    (step : Nat → String → ProcResult) (cache : Cache) (now : Int) (body : TweetsBody)
    (hnone : body.tweets = none) :
    (fetchUserLastTweetsV2 (some u) (.payload b) step cache now =
      .ok { successfulPosts := [], failedIds := [], skippedCachedIds := [],
            cacheAfter := cache }) ∧
    (fetchUserLastTweets (some u) (.success body) step cache now =
      .serverError "Not found or Twitter API error") := by
  constructor
  · simp only [fetchUserLastTweetsV2, if_neg hu]
    rw [hb]
    rfl
  · simp only [fetchUserLastTweets, if_neg hu]
    split
    · rename_i tws h1 h2
      rw [hnone] at h2
      cases h2
    · rfl

/-- A variant 2 payload with every probed field absent. -/
def absentPayload : V2UserPayload :=
  { tweets := none, dataTweets := none, items := none }

/-- A variant 1 body with no `status` and no `tweets` field. -/
def emptyBody : TweetsBody := { status := none, tweets := none }

/-- **C7** (witness): the amended theorem at an all-absent variant 2 payload
and a tweetless variant 1 body. -/
theorem author_fetch_amended_witness :
    (fetchUserLastTweetsV2 (some "user2") (.payload absentPayload)
      (fun _ id => .failure id "w") emptyCache 0 =
      .ok { successfulPosts := [], failedIds := [], skippedCachedIds := [],
            cacheAfter := emptyCache }) ∧
    (fetchUserLastTweets (some "user2") (.success emptyBody)
      (fun _ id => .failure id "w") emptyCache 0 =
      .serverError "Not found or Twitter API error") :=
  author_fetch_amended "user2" (by decide) absentPayload
    rfl (fun _ id => .failure id "w") emptyCache 0 emptyBody rfl

end TweetServer
